import Mathlib

/-!
Verification of the Loyalty Drift Dashboard core (src/app.js).

The core is `compareEvents` (src/app.js lines 80-135): it compares two flat
JSON records over the fixed `DRIFT_FIELDS` list and returns a list of
per-field issues plus a drift level derived from the issue count.  We embed
the records as partial maps from field names to scalar JSON values, the
per-field body of the `DRIFT_FIELDS.forEach` loop as `issueFor`, and the
whole comparator as `compareEventsOn` (generalised over the tracked field
list, with `compareEvents` as its instantiation at `DRIFT_FIELDS`).  The
`checkDriftBtn` click handler (lines 314-343) is embedded as
`checkDriftHandler`, abstracting the external `JSON.parse` inside
`safeParse` as a parameter.
-/

/-- A scalar JSON value as used by the drift checker: a string or a number.
JavaScript strict equality `!==` on such scalars is constructor-wise
disequality, with no type coercion (`5 !== "5"` is true). -/
inductive Value where
  | str (s : String)
  | num (n : Int)
deriving DecidableEq

/-- How a value is interpolated into a template literal: strings verbatim,
numbers in decimal. -/
def Value.render : Value → String
  | .str s => s
  | .num n => toString n

/-- A flat event record: a mapping from field name to scalar value, possibly
missing fields.  `r f = none` models `!Object.prototype.hasOwnProperty.call(r, f)`. -/
def Record : Type := String → Option Value

/-- The record denoted by a JSON object literal with the given key/value
pairs (what `JSON.parse` produces for the scenario texts). -/
def Record.ofList (entries : List (String × Value)) : Record :=
  fun f => (entries.find? (fun p => p.1 == f)).map Prod.snd

/-- One detected difference, as pushed onto `issues` in `compareEvents`
(src/app.js lines 88-120).  `fromVal`/`toVal` embed the JS `from`/`to`
attributes (`from` is reserved in Lean); `none` models `undefined`. -/
structure Issue where
  field : String
  type : String
  fromVal : Option Value
  toVal : Option Value
  message : String
deriving DecidableEq

/-- The result of `compareEvents`: the issue list and the drift level string. -/
structure DriftReport where
  issues : List Issue
  driftLevel : String
deriving DecidableEq

/-- The fields tracked for drift (src/app.js lines 67-77). -/
def DRIFT_FIELDS : List String :=
  ["partnerId", "tier", "segment", "promoCode", "campaignId",
   "score", "spend", "currency", "category"]

/-- The body of the `DRIFT_FIELDS.forEach` loop in `compareEvents`
(src/app.js lines 83-123) for a single field: the issue pushed for this
field, or `none` when nothing is pushed.  The four cases are the
`has1 && !has2`, `!has1 && has2`, `has1 && has2` (with strict `!==` value
comparison) and remaining branches of the loop body, with the exact
template-literal messages. -/
def issueFor (v1 v2 : Record) (field : String) : Option Issue :=
  match v1 field, v2 field with
  | some val1, none =>
      some { field := field, type := "removed", fromVal := some val1, toVal := none,
             message := "Field removed in v2: " ++ field ++ " (was \"" ++ val1.render ++ "\")" }
  | none, some val2 =>
      some { field := field, type := "added", fromVal := none, toVal := some val2,
             message := "Field added in v2: " ++ field ++ " (now \"" ++ val2.render ++ "\")" }
  | some val1, some val2 =>
      if val1 ≠ val2 then
        some { field := field, type := "changed", fromVal := some val1, toVal := some val2,
               message := "Value drift in " ++ field ++ ": v1=\"" ++ val1.render
                 ++ "\" → v2=\"" ++ val2.render ++ "\"" }
      else none
  | none, none => none

/-- `compareEvents` (src/app.js lines 80-135), generalised over the tracked
field list (the code reads the global `DRIFT_FIELDS`; the spec contract is
`compare(recordA, recordB, trackedFields)`).  The `forEach` with conditional
`push` is `filterMap` of the per-field body, and the drift-level computation
embeds lines 126-132: start at `"Low"`, `"Medium"` when
`count >= 2 && count <= 4`, `"High"` when `count > 4`. -/
def compareEventsOn (driftFields : List String) (v1 v2 : Record) : DriftReport :=
  let issues := driftFields.filterMap (issueFor v1 v2)
  let count := issues.length
  let driftLevel :=
    if 2 ≤ count ∧ count ≤ 4 then "Medium"
    else if 4 < count then "High"
    else "Low"
  { issues := issues, driftLevel := driftLevel }

/-- `compareEvents` as in the source: the comparator over `DRIFT_FIELDS`. -/
def compareEvents (v1 v2 : Record) : DriftReport :=
  compareEventsOn DRIFT_FIELDS v1 v2

/-- Spec-side predicate: records A and B disagree on field `f` in presence
or value ("present in A only", "present in B only", or "present in both,
values unequal under strict equality"). -/
def presenceOrValueDiffers (A B : Record) (f : String) : Bool :=
  match A f, B f with
  | some _, none => true
  | none, some _ => true
  | some a, some b => decide (a ≠ b)
  | none, none => false

/-- Spec-side severity function of the issue count alone:
`n < 2 → Low`, `2 <= n <= 4 → Medium`, `n > 4 → High`. -/
def severityOfCount (n : Nat) : String :=
  if n < 2 then "Low" else if n ≤ 4 then "Medium" else "High"

/-- Spec-side message function: the message of an issue as determined purely
by its `type`, `field`, `fromVal` and `toVal` attributes.  Absent values
interpolate as JavaScript `undefined` would (never reached by the
comparator). -/
def messageOf (type : String) (field : String) (fromVal toVal : Option Value) : String :=
  let renderOpt : Option Value → String := fun v => (v.map Value.render).getD "undefined"
  if type = "removed" then
    "Field removed in v2: " ++ field ++ " (was \"" ++ renderOpt fromVal ++ "\")"
  else if type = "added" then
    "Field added in v2: " ++ field ++ " (now \"" ++ renderOpt toVal ++ "\")"
  else
    "Value drift in " ++ field ++ ": v1=\"" ++ renderOpt fromVal
      ++ "\" → v2=\"" ++ renderOpt toVal ++ "\""

/-- JavaScript `String.prototype.trim()` as used on the error message at
src/app.js line 334: strips leading and trailing whitespace. -/
def jsTrim (s : String) : String :=
  ⟨((s.data.dropWhile Char.isWhitespace).reverse.dropWhile Char.isWhitespace).reverse⟩

/-- Result of `safeParse` (src/app.js lines 4-10): either the parsed record
or the caught exception's message. -/
inductive Parsed where
  | ok (value : Record)
  | err (error : String)

/-- What `renderSummary` (src/app.js lines 139-157) reads from its argument:
only `issues.length` and `driftLevel`. -/
structure SummaryView where
  issueCount : Nat
  driftLevel : String
deriving DecidableEq

/-- The observable effects of one run of the `checkDriftBtn` click handler
(src/app.js lines 314-343): the text assigned to `drift-status`, the text
the handler itself writes to `raw-output` in the parse-error branch, the
argument passed to `renderSummary` (`none` models `null`), the report passed
to `renderDetails` (`none` when it is called with `null` or not called), and
whether `compareEvents` was invoked. -/
structure HandlerOutcome where
  statusText : String
  errorOutput : Option String
  summary : Option SummaryView
  rendered : Option DriftReport
  invokedComparator : Bool
deriving DecidableEq

/-- The `checkDriftBtn` click handler (src/app.js lines 314-343).  The
external `JSON.parse` inside `safeParse` is abstracted as the `parse`
parameter.  In the parse-error branch the handler builds the error text
per failing side, trims it into `raw-output`, and calls
`renderSummary` with the fabricated object
`issues: two empty objects, driftLevel: "Low"` ("just to show something"),
which `renderSummary` sees as a 2-issue Low report. -/
def checkDriftHandler (raw1 raw2 : String) (parse : String → Parsed) : HandlerOutcome :=
  if raw1 = "" ∨ raw2 = "" then
    { statusText := "Please select a scenario first; events are empty.",
      errorOutput := none, summary := none, rendered := none,
      invokedComparator := false }
  else
    match parse raw1, parse raw2 with
    | Parsed.ok v1, Parsed.ok v2 =>
        let result := compareEvents v1 v2
        { statusText := "Drift calculation complete.",
          errorOutput := none,
          summary := some { issueCount := result.issues.length,
                            driftLevel := result.driftLevel },
          rendered := some result,
          invokedComparator := true }
    | p1, p2 =>
        let msg := "Error parsing JSON:\n"
          ++ (match p1 with
              | Parsed.err e => "- Event v1: " ++ e ++ "\n"
              | Parsed.ok _ => "")
          ++ (match p2 with
              | Parsed.err e => "- Event v2: " ++ e ++ "\n"
              | Parsed.ok _ => "")
        { statusText := "JSON parsing error.",
          errorOutput := some (jsTrim msg),
          summary := some { issueCount := 2, driftLevel := "Low" },
          rendered := none,
          invokedComparator := false }

/-- The parsed form of `SCENARIOS.scenario1.v1` (src/app.js lines 16-26). -/
def scenario1_v1 : Record := Record.ofList
  [("partnerId", Value.str "PartnerA"), ("tier", Value.str "Gold"),
   ("segment", Value.str "HighValue"), ("promoCode", Value.str "SPRING10"),
   ("campaignId", Value.str "CAMP123"), ("score", Value.num 82),
   ("spend", Value.num 120), ("currency", Value.str "USD"),
   ("category", Value.str "Electronics")]

/-- The parsed form of `SCENARIOS.scenario1.v2` (src/app.js lines 27-37). -/
def scenario1_v2 : Record := Record.ofList
  [("partnerId", Value.str "partner-a"), ("tier", Value.str "Platinum"),
   ("segment", Value.str "HighValue"), ("promoCode", Value.str "SPRING20"),
   ("campaignId", Value.str "CAMP123"), ("score", Value.num 76),
   ("spend", Value.num 120), ("currency", Value.str "USD"),
   ("category", Value.str "Electronics-Devices")]

/-- A parse stub for exercising the handler's error branch: the text
`not-json` fails to parse (as `JSON.parse` would reject it), anything else
parses to the empty record. -/
def parseStub : String → Parsed :=
  fun s =>
    if s = "not-json" then Parsed.err "Unexpected token o in JSON at position 1"
    else Parsed.ok (Record.ofList [])

/-! ### Basic lemmas about the per-field loop body -/

/-- An issue emitted for a field carries that field's name. -/
theorem issueFor_field {A B : Record} {f : String} {i : Issue}
    (h : issueFor A B f = some i) : i.field = f := by
  unfold issueFor at h
  split at h
  · cases h; rfl
  · cases h; rfl
  · split at h
    · cases h; rfl
    · exact absurd h (by simp)
  · exact absurd h (by simp)

/-- The loop body emits an issue for a field exactly when the records
disagree on it in presence or value. -/
theorem issueFor_isSome (A B : Record) (f : String) :
    (issueFor A B f).isSome = presenceOrValueDiffers A B f := by
  unfold issueFor presenceOrValueDiffers
  cases hA : A f <;> cases hB : B f <;> simp
  split <;> simp_all

/-- The field names of the issues over a field list are exactly the
differing fields, in list order. -/
theorem fields_filterMap (F : List String) (A B : Record) :
    (F.filterMap (issueFor A B)).map Issue.field
      = F.filter (presenceOrValueDiffers A B) := by
  induction F with
  | nil => rfl
  | cons f F ih =>
      rw [List.filterMap_cons, List.filter_cons]
      cases hi : issueFor A B f with
      | none =>
          have hd : presenceOrValueDiffers A B f = false := by
            rw [← issueFor_isSome, hi]; rfl
          rw [hd]; simpa using ih
      | some i =>
          have hd : presenceOrValueDiffers A B f = true := by
            rw [← issueFor_isSome, hi]; rfl
          rw [hd]
          simp only [List.map_cons, if_true, ih, issueFor_field hi]

/-- Complete case analysis of a successfully emitted issue: which presence
pattern produced it and which `type` it carries. -/
theorem issueFor_cases {A B : Record} {f : String} {i : Issue}
    (h : issueFor A B f = some i) :
    (∃ a, A f = some a ∧ B f = none ∧ i.type = "removed"
        ∧ i.fromVal = some a ∧ i.toVal = none) ∨
    (∃ b, A f = none ∧ B f = some b ∧ i.type = "added"
        ∧ i.fromVal = none ∧ i.toVal = some b) ∨
    (∃ a b, A f = some a ∧ B f = some b ∧ a ≠ b ∧ i.type = "changed"
        ∧ i.fromVal = some a ∧ i.toVal = some b) := by
  unfold issueFor at h
  split at h
  · cases h
    exact Or.inl ⟨_, by assumption, by assumption, rfl, rfl, rfl⟩
  · cases h
    exact Or.inr (Or.inl ⟨_, by assumption, by assumption, rfl, rfl, rfl⟩)
  · split at h
    · cases h
      exact Or.inr (Or.inr ⟨_, _, by assumption, by assumption, by assumption, rfl, rfl, rfl⟩)
    · exact absurd h (by simp)
  · exact absurd h (by simp)

/-- Swapping the argument order swaps `removed` and `added` and preserves
`changed`, field by field. -/
theorem issueFor_swap_type {A B : Record} {f : String} {i j : Issue}
    (hi : issueFor A B f = some i) (hj : issueFor B A f = some j) :
    (i.type = "removed" ∧ j.type = "added") ∨
    (i.type = "added" ∧ j.type = "removed") ∨
    (i.type = "changed" ∧ j.type = "changed") := by
  rcases issueFor_cases hi with ⟨a, ha, hb, ht, _, _⟩ | ⟨b, ha, hb, ht, _, _⟩ |
    ⟨a, b, ha, hb, hne, ht, _, _⟩ <;>
  rcases issueFor_cases hj with ⟨c, hc, hd, ht', _, _⟩ | ⟨d, hc, hd, ht', _, _⟩ |
    ⟨c, d, hc, hd, hne', ht', _, _⟩ <;>
  simp_all

/-- The disagreement predicate is symmetric in the two records. -/
theorem presenceOrValueDiffers_symm (A B : Record) (f : String) :
    presenceOrValueDiffers B A f = presenceOrValueDiffers A B f := by
  unfold presenceOrValueDiffers
  cases A f <;> cases B f <;> simp
  exact eq_comm

/-- The drift-level if-chain of src/app.js lines 126-132 agrees with the
spec's severity buckets at every count. -/
theorem levelOfCount_eq (n : Nat) :
    (if 2 ≤ n ∧ n ≤ 4 then "Medium" else if 4 < n then "High" else "Low")
      = severityOfCount n := by
  unfold severityOfCount
  by_cases h1 : n < 2
  · rw [if_neg (by omega), if_neg (by omega), if_pos h1]
  · by_cases h2 : n ≤ 4
    · rw [if_pos ⟨by omega, h2⟩, if_neg (by omega), if_pos h2]
    · rw [if_neg (by omega), if_pos (by omega), if_neg h1, if_neg h2]

/-- The issue list of a comparison is the `filterMap` of the loop body. -/
theorem compareEventsOn_issues (F : List String) (A B : Record) :
    (compareEventsOn F A B).issues = F.filterMap (issueFor A B) := rfl

/-- The drift level of a comparison is the spec severity of its count. -/
theorem compareEventsOn_driftLevel (F : List String) (A B : Record) :
    (compareEventsOn F A B).driftLevel
      = severityOfCount (compareEventsOn F A B).issues.length := by
  show (if 2 ≤ (F.filterMap (issueFor A B)).length ∧
          (F.filterMap (issueFor A B)).length ≤ 4 then "Medium"
        else if 4 < (F.filterMap (issueFor A B)).length then "High"
        else "Low")
      = severityOfCount (F.filterMap (issueFor A B)).length
  exact levelOfCount_eq _

/-- The message of every emitted issue is fully determined by its other
attributes. -/
theorem issueFor_message {A B : Record} {f : String} {i : Issue}
    (h : issueFor A B f = some i) :
    i.message = messageOf i.type i.field i.fromVal i.toVal := by
  unfold issueFor at h
  split at h
  · cases h; rfl
  · cases h; rfl
  · split at h
    · cases h; rfl
    · exact absurd h (by simp)
  · exact absurd h (by simp)

/-! ### Concrete records and issues used to witness the universal claims -/

/-- A record with only `tier`, set to the number 1. -/
def wRecX : Record := Record.ofList [("tier", Value.num 1)]

/-- A record with only `tier`, set to the number 2. -/
def wRecY : Record := Record.ofList [("tier", Value.num 2)]

/-- The empty record. -/
def wRecNone : Record := Record.ofList []

/-- A record with only `tier`, set to the number 5. -/
def wRecNum5 : Record := Record.ofList [("tier", Value.num 5)]

/-- A record with only `tier`, set to the string "5". -/
def wRecStr5 : Record := Record.ofList [("tier", Value.str "5")]

/-- The issue `compareEvents wRecX wRecNone` emits for `tier`. -/
def wIssueRemoved : Issue :=
  { field := "tier", type := "removed", fromVal := some (Value.num 1), toVal := none,
    message := "Field removed in v2: tier (was \"1\")" }

/-- The issue `compareEvents wRecNone wRecX` emits for `tier`. -/
def wIssueAdded : Issue :=
  { field := "tier", type := "added", fromVal := none, toVal := some (Value.num 1),
    message := "Field added in v2: tier (now \"1\")" }

/-- The issue `compareEvents wRecX wRecY` emits for `tier`. -/
def wIssueChanged : Issue :=
  { field := "tier", type := "changed", fromVal := some (Value.num 1),
    toVal := some (Value.num 2),
    message := "Value drift in tier: v1=\"1\" → v2=\"2\"" }


/-! ### The claims -/

/-- C1: for every pair of records and every tracked field, the comparator's
per-field loop body emits exactly the issue the presence pattern dictates:
present only in A → one `removed` issue with `from` = A's value, `to`
absent; present only in B → one `added` issue with `from` absent, `to` =
B's value; present in both with unequal values under strict equality → one
`changed` issue with both values; equal in both or absent from both → no
issue.  Strict equality never coerces: the number 5 and the string "5" are
different values. -/
theorem c1_per_field_issue_dictation (A B : Record) (f : String) (a b : Value) :
    (A f = some a → B f = none →
      ∃ i, issueFor A B f = some i ∧ i.type = "removed"
        ∧ i.fromVal = some a ∧ i.toVal = none) ∧
    (A f = none → B f = some b →
      ∃ i, issueFor A B f = some i ∧ i.type = "added"
        ∧ i.fromVal = none ∧ i.toVal = some b) ∧
    (A f = some a → B f = some b → a ≠ b →
      ∃ i, issueFor A B f = some i ∧ i.type = "changed"
        ∧ i.fromVal = some a ∧ i.toVal = some b) ∧
    (A f = some a → B f = some b → a = b → issueFor A B f = none) ∧
    (A f = none → B f = none → issueFor A B f = none) ∧
    Value.num 5 ≠ Value.str "5" := by
  refine ⟨?_, ?_, ?_, ?_, ?_, by simp⟩
  · intro hA hB
    refine ⟨{ field := f, type := "removed", fromVal := some a, toVal := none,
              message := "Field removed in v2: " ++ f ++ " (was \"" ++ a.render ++ "\")" },
            ?_, rfl, rfl, rfl⟩
    simp [issueFor, hA, hB]
  · intro hA hB
    refine ⟨{ field := f, type := "added", fromVal := none, toVal := some b,
              message := "Field added in v2: " ++ f ++ " (now \"" ++ b.render ++ "\")" },
            ?_, rfl, rfl, rfl⟩
    simp [issueFor, hA, hB]
  · intro hA hB hne
    refine ⟨{ field := f, type := "changed", fromVal := some a, toVal := some b,
              message := "Value drift in " ++ f ++ ": v1=\"" ++ a.render
                ++ "\" → v2=\"" ++ b.render ++ "\"" },
            ?_, rfl, rfl, rfl⟩
    simp [issueFor, hA, hB, hne]
  · intro hA hB heq
    simp [issueFor, hA, hB, heq]
  · intro hA hB
    simp [issueFor, hA, hB]

/-- Witness for C1: each presence pattern exercised at a concrete record
pair over the field `tier`, including the non-coercing 5 vs "5" case. -/
theorem c1_witness :
    (∃ i, issueFor wRecX wRecNone "tier" = some i ∧ i.type = "removed"
       ∧ i.fromVal = some (Value.num 1) ∧ i.toVal = none) ∧
    (∃ i, issueFor wRecNone wRecY "tier" = some i ∧ i.type = "added"
       ∧ i.fromVal = none ∧ i.toVal = some (Value.num 2)) ∧
    (∃ i, issueFor wRecNum5 wRecStr5 "tier" = some i ∧ i.type = "changed"
       ∧ i.fromVal = some (Value.num 5) ∧ i.toVal = some (Value.str "5")) ∧
    issueFor wRecX wRecX "tier" = none ∧
    issueFor wRecNone wRecNone "tier" = none ∧
    Value.num 5 ≠ Value.str "5" :=
  ⟨(c1_per_field_issue_dictation wRecX wRecNone "tier" (Value.num 1) (Value.num 1)).1
      rfl rfl,
   (c1_per_field_issue_dictation wRecNone wRecY "tier" (Value.num 2) (Value.num 2)).2.1
      rfl rfl,
   (c1_per_field_issue_dictation wRecNum5 wRecStr5 "tier" (Value.num 5)
      (Value.str "5")).2.2.1 rfl rfl (by decide),
   (c1_per_field_issue_dictation wRecX wRecX "tier" (Value.num 1) (Value.num 1)).2.2.2.1
      rfl rfl rfl,
   (c1_per_field_issue_dictation wRecNone wRecNone "tier" (Value.num 1)
      (Value.num 1)).2.2.2.2.1 rfl rfl,
   (c1_per_field_issue_dictation wRecNone wRecNone "tier" (Value.num 1)
      (Value.num 1)).2.2.2.2.2⟩

/-- C2: for all records A, B and tracked field list F, the report contains
exactly one issue per field of F on which A and B disagree in presence or
value (in list order) and no other issues, so the issue count equals the
number of differing fields. -/
theorem c2_issue_count_invariant (F : List String) (A B : Record) :
    (compareEventsOn F A B).issues.map Issue.field
        = F.filter (presenceOrValueDiffers A B) ∧
    (compareEventsOn F A B).issues.length
        = (F.filter (presenceOrValueDiffers A B)).length := by
  have h := fields_filterMap F A B
  rw [compareEventsOn_issues]
  exact ⟨h, by rw [← h, List.length_map]⟩

/-- C3: the severity level is a pure function of the issue count alone,
with `n < 2 → Low`, `2 <= n <= 4 → Medium`, `n > 4 → High`; in particular
1 issue is Low, 2 and 4 issues are Medium, and 5 issues are High. -/
theorem c3_severity_of_count (F : List String) (A B : Record) :
    (compareEventsOn F A B).driftLevel
        = severityOfCount (compareEventsOn F A B).issues.length ∧
    severityOfCount 0 = "Low" ∧ severityOfCount 1 = "Low" ∧
    severityOfCount 2 = "Medium" ∧ severityOfCount 4 = "Medium" ∧
    severityOfCount 5 = "High" :=
  ⟨compareEventsOn_driftLevel F A B, rfl, rfl, rfl, rfl, rfl⟩

/-- C4 (counter-evidence): on a parse failure of event v1, the click
handler reports the textual error and does not invoke the comparator, but
it nevertheless passes `renderSummary` the fabricated report view
`issueCount 2, driftLevel Low` coming from the synthetic
`issues: two empty objects` object, instead of only an explicit error
state. -/
theorem c4_parse_error_fabricated_summary :
    checkDriftHandler "not-json" "ok" parseStub =
      { statusText := "JSON parsing error.",
        errorOutput :=
          some "Error parsing JSON:\n- Event v1: Unexpected token o in JSON at position 1",
        summary := some { issueCount := 2, driftLevel := "Low" },
        rendered := none,
        invokedComparator := false } := by
  decide

/-- C5: comparing A against B and B against A yields the same issue count
and the same sequence of affected field names, and for issues on the same
field the `removed` and `added` labels are swapped between the two
directions while `changed` stays `changed`. -/
theorem c5_argument_order_symmetry (F : List String) (A B : Record) :
    (compareEventsOn F B A).issues.length = (compareEventsOn F A B).issues.length ∧
    (compareEventsOn F B A).issues.map Issue.field
        = (compareEventsOn F A B).issues.map Issue.field ∧
    (∀ i ∈ (compareEventsOn F A B).issues, ∀ j ∈ (compareEventsOn F B A).issues,
      i.field = j.field →
        (i.type = "removed" ∧ j.type = "added") ∨
        (i.type = "added" ∧ j.type = "removed") ∨
        (i.type = "changed" ∧ j.type = "changed")) := by
  have hfields : (compareEventsOn F B A).issues.map Issue.field
      = (compareEventsOn F A B).issues.map Issue.field := by
    rw [compareEventsOn_issues, compareEventsOn_issues, fields_filterMap, fields_filterMap]
    exact List.filter_congr (fun f _ => presenceOrValueDiffers_symm A B f)
  refine ⟨?_, hfields, ?_⟩
  · have := congrArg List.length hfields
    simpa using this
  · intro i hi j hj hij
    rw [compareEventsOn_issues] at hi hj
    obtain ⟨fi, _, hfi⟩ := List.mem_filterMap.mp hi
    obtain ⟨fj, _, hfj⟩ := List.mem_filterMap.mp hj
    have hf : fi = fj := by
      rw [← issueFor_field hfi, ← issueFor_field hfj, hij]
    rw [hf] at hfi
    exact issueFor_swap_type hfi hfj

/-- Witness for C5: over the single tracked field `tier`, comparing a
record that has `tier` against one that lacks it gives equal counts in both
directions, and the `removed` issue of one direction pairs with the `added`
issue of the other. -/
theorem c5_witness :
    (compareEventsOn ["tier"] wRecNone wRecX).issues.length
        = (compareEventsOn ["tier"] wRecX wRecNone).issues.length ∧
    ((wIssueRemoved.type = "removed" ∧ wIssueAdded.type = "added") ∨
     (wIssueRemoved.type = "added" ∧ wIssueAdded.type = "removed") ∨
     (wIssueRemoved.type = "changed" ∧ wIssueAdded.type = "changed")) :=
  have h := c5_argument_order_symmetry ["tier"] wRecX wRecNone
  ⟨h.1, h.2.2 wIssueRemoved (by decide) wIssueAdded (by decide) rfl⟩

/-- C6: the comparator is deterministic — identical arguments give
structurally identical reports — and every issue's message is derived
purely from that issue's field, kind, from and to attributes. -/
theorem c6_determinism_and_pure_messages (A B A2 B2 : Record) :
    (A = A2 → B = B2 → compareEvents A B = compareEvents A2 B2) ∧
    (∀ i ∈ (compareEvents A B).issues,
      i.message = messageOf i.type i.field i.fromVal i.toVal) := by
  constructor
  · intro h1 h2
    rw [h1, h2]
  · intro i hi
    rw [compareEvents, compareEventsOn_issues] at hi
    obtain ⟨f, _, hif⟩ := List.mem_filterMap.mp hi
    exact issueFor_message hif

/-- Witness for C6: at concrete records differing on `tier`, the report
equals itself and the emitted `changed` issue's message is the pure message
function of its attributes. -/
theorem c6_witness :
    compareEvents wRecX wRecY = compareEvents wRecX wRecY ∧
    wIssueChanged.message
        = messageOf wIssueChanged.type wIssueChanged.field
            wIssueChanged.fromVal wIssueChanged.toVal :=
  have h := c6_determinism_and_pure_messages wRecX wRecY wRecX wRecY
  ⟨h.1 rfl rfl, h.2 wIssueChanged (by decide)⟩

/-- C7: the field names of the issues of any comparison form exactly the
subsequence of the tracked field list (partnerId, tier, segment, promoCode,
campaignId, score, spend, currency, category, in that order) consisting of
the differing fields. -/
theorem c7_issue_order_tracked_fields (A B : Record) :
    (compareEvents A B).issues.map Issue.field
        = DRIFT_FIELDS.filter (presenceOrValueDiffers A B) ∧
    ((compareEvents A B).issues.map Issue.field).Sublist DRIFT_FIELDS ∧
    DRIFT_FIELDS = ["partnerId", "tier", "segment", "promoCode", "campaignId",
                    "score", "spend", "currency", "category"] := by
  refine ⟨fields_filterMap DRIFT_FIELDS A B, ?_, rfl⟩
  rw [compareEvents, compareEventsOn_issues, fields_filterMap]
  exact List.filter_sublist _

/-- C8: the comparator is total on well-formed records: it always returns a
valid report (the level is one of Low, Medium, High and there are no more
issues than tracked fields), and a field missing from both records is
treated as absent, producing no issue rather than an error. -/
theorem c8_comparator_total (F : List String) (A B : Record) :
    ((compareEventsOn F A B).driftLevel = "Low" ∨
     (compareEventsOn F A B).driftLevel = "Medium" ∨
     (compareEventsOn F A B).driftLevel = "High") ∧
    (compareEventsOn F A B).issues.length ≤ F.length ∧
    (∀ f, A f = none → B f = none → issueFor A B f = none) := by
  refine ⟨?_, ?_, ?_⟩
  · rw [compareEventsOn_driftLevel]
    unfold severityOfCount
    split
    · exact Or.inl rfl
    · split
      · exact Or.inr (Or.inl rfl)
      · exact Or.inr (Or.inr rfl)
  · rw [compareEventsOn_issues]
    exact List.length_filterMap_le _ _
  · intro f hA hB
    simp [issueFor, hA, hB]

/-- Witness for C8: the empty records over the single tracked field `tier`
give a valid report with at most one issue, and the absent field produces
no issue. -/
theorem c8_witness :
    ((compareEventsOn ["tier"] wRecNone wRecNone).driftLevel = "Low" ∨
     (compareEventsOn ["tier"] wRecNone wRecNone).driftLevel = "Medium" ∨
     (compareEventsOn ["tier"] wRecNone wRecNone).driftLevel = "High") ∧
    (compareEventsOn ["tier"] wRecNone wRecNone).issues.length ≤ 1 ∧
    issueFor wRecNone wRecNone "tier" = none :=
  have h := c8_comparator_total ["tier"] wRecNone wRecNone
  ⟨h.1, h.2.1, h.2.2 "tier" rfl rfl⟩

/-- C9: comparing the two Scenario 1 records yields exactly five issues,
one `changed` issue for each of partnerId, tier, promoCode, score and
category, and the drift level High. -/
theorem c9_scenario1_five_changed_high :
    (compareEvents scenario1_v1 scenario1_v2).issues.map (fun i => (i.field, i.type))
        = [("partnerId", "changed"), ("tier", "changed"), ("promoCode", "changed"),
           ("score", "changed"), ("category", "changed")] ∧
    (compareEvents scenario1_v1 scenario1_v2).issues.length = 5 ∧
    (compareEvents scenario1_v1 scenario1_v2).driftLevel = "High" := by
  refine ⟨?_, ?_, ?_⟩ <;> decide

/-- C10: every issue of any report of the comparator is internally
well-formed: a `removed` issue has no `to`, an `added` issue has no `from`,
a `changed` issue has both values present and unequal, every issue's field
is a tracked field, and no field occurs in two issues of one report. -/
theorem c10_issue_well_formed (A B : Record) :
    (∀ i ∈ (compareEvents A B).issues,
      (i.type = "removed" → i.toVal = none) ∧
      (i.type = "added" → i.fromVal = none) ∧
      (i.type = "changed" → ∃ a b, i.fromVal = some a ∧ i.toVal = some b ∧ a ≠ b) ∧
      i.field ∈ DRIFT_FIELDS) ∧
    ((compareEvents A B).issues.map Issue.field).Nodup := by
  constructor
  · intro i hi
    rw [compareEvents, compareEventsOn_issues] at hi
    obtain ⟨f, hf, hif⟩ := List.mem_filterMap.mp hi
    have hfield := issueFor_field hif
    rcases issueFor_cases hif with ⟨a, _, _, ht, h1, h2⟩ | ⟨b, _, _, ht, h1, h2⟩ |
      ⟨a, b, _, _, hne, ht, h1, h2⟩
    · exact ⟨fun _ => h2, fun h => absurd (ht.symm.trans h) (by decide),
             fun h => absurd (ht.symm.trans h) (by decide), hfield ▸ hf⟩
    · exact ⟨fun h => absurd (ht.symm.trans h) (by decide), fun _ => h1,
             fun h => absurd (ht.symm.trans h) (by decide), hfield ▸ hf⟩
    · exact ⟨fun h => absurd (ht.symm.trans h) (by decide),
             fun h => absurd (ht.symm.trans h) (by decide),
             fun _ => ⟨a, b, h1, h2, hne⟩, hfield ▸ hf⟩
  · rw [compareEvents, compareEventsOn_issues, fields_filterMap]
    exact List.Nodup.filter _ (by decide)

/-- Witness for C10: the concrete `changed` issue emitted for `tier` has
both values present and unequal, its field is tracked, and the concrete
report's fields are distinct. -/
theorem c10_witness :
    (∃ a b, wIssueChanged.fromVal = some a ∧ wIssueChanged.toVal = some b ∧ a ≠ b) ∧
    wIssueChanged.field ∈ DRIFT_FIELDS ∧
    ((compareEvents wRecX wRecY).issues.map Issue.field).Nodup := by
  have h := c10_issue_well_formed wRecX wRecY
  have hh := h.1 wIssueChanged (by decide)
  exact ⟨hh.2.2.1 rfl, hh.2.2.2, h.2⟩
